import Mathlib

/-!
Verification of the artful-gcode core (src/lib.rs) : command model, rendering,
rescaling, draw_point, distance estimation and save assembly.

Numeric model: the f32 values of the source are embedded as exact rationals;
Euclidean norms live in the reals via Real.sqrt.  The output sink
(std::fs::File) is modelled as an abstract sink that may fail on creation or
on any individual write, mirroring the Result values the source receives.
-/

/-- Fixed linear-motion mode constant (const G_MODE: u32 = 0). -/
def G_MODE : ℕ := 0

/-- Fixed park height used by the footer (const Z_RESET: f32 = 80.0). -/
def Z_RESET : ℚ := 80

/-- Nominal speed used for the duration estimate (const SPEED: f32 = 10.0). -/
def SPEED : ℚ := 10

/-- Raw passthrough instruction (struct Source). -/
structure Source where
  code : String
  comment : Option String
deriving DecidableEq

/-- Partial 3-axis coordinate (struct Point), each axis independently optional. -/
structure Point where
  x : Option ℚ
  y : Option ℚ
  z : Option ℚ
deriving DecidableEq

/-- Command variants (enum Code). -/
inductive Code where
  | Comment : String → Code
  | Model : String → Code
  | Message : String → Code
  | Move : Point → ℚ → Code
  | Raw : Source → Code
  | NOP : Code
deriving DecidableEq

/-- Printer configuration (struct PrinterConfig). -/
structure PrinterConfig where
  model : Option Code
  min : ℚ × ℚ
  max : ℚ × ℚ
  scale : Option (ℚ × ℚ)
  z0 : ℚ
  z_plunge : ℚ
  move_speed : ℚ
  plunge_speed : ℚ
  retract_speed : ℚ
deriving DecidableEq

/-- Printer state (struct Printer): configuration, command buffer, derived size. -/
structure Printer where
  config : PrinterConfig
  code : List Code
  width : ℚ
  height : ℚ

/-- Fixed boilerplate command HOME. -/
def HOME : Code := Code.Raw ⟨"G28 W", some "Home all without mesh bed level"⟩

/-- Fixed boilerplate command UNITS_MM. -/
def UNITS_MM : Code := Code.Raw ⟨"G21", some "Set units to millimeters"⟩

/-- Fixed boilerplate command ABS_COORD. -/
def ABS_COORD : Code := Code.Raw ⟨"G90", some "Use absolute coordinates"⟩

/-- Fixed boilerplate command SET_ORIGIN. -/
def SET_ORIGIN : Code := Code.Raw ⟨"G92 X0 Y0", some "Set current position to origin"⟩

/-- Fixed boilerplate command OFF. -/
def OFF : Code := Code.Raw ⟨"M84", some "Disable motors"⟩

/-- One-decimal numeric rendering, the format string used throughout the source. -/
def fmt1 (q : ℚ) : String :=
  let n : ℤ := round (q * 10)
  let sign := if n < 0 then "-" else ""
  sign ++ toString (n.natAbs / 10) ++ "." ++ toString (n.natAbs % 10)

/-- Two-digit zero-padded rendering, the 02 format used for progress times. -/
def fmt02 (n : ℕ) : String :=
  if n < 10 then "0" ++ toString n else toString n

/-- Linear interpolation from a source range into a target range (fn rescale). -/
def rescale (m rmin rmax tmin tmax : ℚ) : ℚ :=
  ((m - rmin) / (rmax - rmin)) * (tmax - tmin) + tmin

/-- Rendering of one axis (fn render_coord): empty when the axis is absent. -/
def render_coord (axis : Char) (v : Option ℚ) : String :=
  match v with
  | some value => Char.toString axis ++ fmt1 value
  | none => ""

/-- Rendering of a comment line (the Comment arm of Display for Code). -/
def renderComment (c : String) : String := "; " ++ c

/-- Rendering of a Point (impl fmt::Display for Point), with the two
conditional separator spaces of the source. -/
def Point.render (p : Point) : String :=
  let x := render_coord 'X' p.x
  let y := render_coord 'Y' p.y
  let z := render_coord 'Z' p.z
  let x_space := if 0 < x.length ∧ (0 < y.length ∨ 0 < z.length) then " " else ""
  let y_space := if 0 < y.length ∧ 0 < z.length then " " else ""
  x ++ x_space ++ y ++ y_space ++ z

/-- Rendering of a Move (fn render_move): a warning comment when the point
renders empty, otherwise a G line with the feed rate. -/
def render_move (point : Point) (feed : ℚ) : String :=
  let point_str := point.render
  if point_str.length = 0 then
    renderComment "[WARNING] Move without coordinates!"
  else
    "G" ++ toString G_MODE ++ " " ++ point_str ++ " F" ++ fmt1 feed

/-- Rendering of a raw passthrough (impl fmt::Display for Source). -/
def Source.render (s : Source) : String :=
  match s.comment with
  | some comment => s.code ++ " ; " ++ comment
  | none => s.code

/-- Rendering of a command line (impl fmt::Display for Code). -/
def Code.render : Code → String
  | Code.Comment c => renderComment c
  | Code.Model m => "M862.3 P \"" ++ m ++ "\" ; printer model check"
  | Code.Message m => "M117 " ++ m
  | Code.Move p s => render_move p s
  | Code.Raw src => src.render
  | Code.NOP => ""

/-- Printer construction (Printer::new): clones the configuration and derives
width and height from the envelope corners. -/
def Printer.new (config : PrinterConfig) : Printer :=
  { config := config
    code := []
    width := config.max.1 - config.min.1
    height := config.max.2 - config.min.2 }

/-- The x coordinate draw_point targets: rescaled from the source drawing
width into the envelope width when a scale is configured. -/
def scaledX (pr : Printer) (xp : ℚ) : ℚ :=
  match pr.config.scale with
  | some (ow, _) => rescale xp 0 ow 0 pr.width
  | none => xp

/-- The y coordinate draw_point targets: rescaled from the source drawing
height into the envelope height when a scale is configured. -/
def scaledY (pr : Printer) (yp : ℚ) : ℚ :=
  match pr.config.scale with
  | some (_, oh) => rescale yp 0 oh 0 pr.height
  | none => yp

/-- Printer::draw_point: pushes a traceability comment, the lateral move, the
plunge, the retract and a NOP onto the command buffer. -/
def draw_point (pr : Printer) (xp yp : ℚ) : Printer :=
  let c1 := pr.code.concat (Code.Comment ("draw_point(" ++ fmt1 xp ++ ", " ++ fmt1 yp ++ ")"))
  let c2 := c1.concat (Code.Move ⟨some (scaledX pr xp), some (scaledY pr yp), none⟩ pr.config.move_speed)
  let c3 := c2.concat (Code.Move ⟨none, none, some pr.config.z_plunge⟩ pr.config.plunge_speed)
  let c4 := c3.concat (Code.Move ⟨none, none, some pr.config.z0⟩ pr.config.retract_speed)
  let c5 := c4.concat Code.NOP
  { pr with code := c5 }

/-- Pairing of two optional values (Option::zip of the standard library). -/
def optZip {α β : Type} : Option α → Option β → Option (α × β)
  | some a, some b => some (a, b)
  | _, _ => none

/-- Euclidean norm of the per-axis deltas (fn delta_point): an axis
contributes only when present on both points. -/
noncomputable def delta_point (a b : Point) : ℝ :=
  let diff : ℚ → ℚ → ℚ := fun a b => a - b
  let delta_x := ((optZip a.x b.x).map (fun p => diff p.1 p.2)).getD 0
  let delta_y := ((optZip a.y b.y).map (fun p => diff p.1 p.2)).getD 0
  let delta_z := ((optZip a.z b.z).map (fun p => diff p.1 p.2)).getD 0
  Real.sqrt ((delta_x : ℝ) ^ 2 + (delta_y : ℝ) ^ 2 + (delta_z : ℝ) ^ 2)

/-- Loop of Printer::total_dist: accumulate Move distances, carrying forward
any axis the move leaves absent. -/
noncomputable def totalDistLoop : ℝ → Point → List Code → ℝ
  | acc, _, [] => acc
  | acc, curr, Code.Move p _ :: rest =>
      totalDistLoop (acc + delta_point curr p)
        { x := p.x.or curr.x, y := p.y.or curr.y, z := p.z.or curr.z } rest
  | acc, curr, _ :: rest => totalDistLoop acc curr rest

/-- Printer::total_dist: walk the buffer once from (0, 0, z0). -/
noncomputable def totalDist (pr : Printer) : ℝ :=
  totalDistLoop 0 { x := some 0, y := some 0, z := some pr.config.z0 } pr.code

/-- Progress sampling interval computed in Printer::save: the buffer length
times 0.015, truncated toward zero by the cast to u32, but never below 5. -/
def skipFor (len : ℕ) : ℕ :=
  max (Int.toNat ⌊(len : ℚ) * (15 / 1000)⌋) 5

/-- Progress message injected by the body loop of Printer::save. -/
def progressMsg (len count total_time : ℕ) : String :=
  let percent : ℚ := (count : ℚ) / (len : ℚ)
  let total_seconds : ℕ := Int.toNat ⌊(1 - percent) * (total_time : ℚ)⌋
  let hours := total_seconds / 3600
  let minutes := (total_seconds % 3600) / 60
  let seconds := total_seconds % 60
  fmt1 (percent * 100) ++ "% R" ++ fmt02 hours ++ ":" ++ fmt02 minutes ++ ":" ++ fmt02 seconds

/-- Body loop of Printer::save: each buffered command, followed by a progress
message whenever the 1-indexed counter is a multiple of the interval. -/
def bodyLoop (len skip total_time : ℕ) : ℕ → List Code → List Code
  | _, [] => []
  | count, c :: rest =>
      c :: ((if count % skip = 0 then [Code.Message (progressMsg len count total_time)] else [])
        ++ bodyLoop len skip total_time (count + 1) rest)

/-- Header commands assembled by Printer::save. -/
def headerCmds (pr : Printer) : List Code :=
  [Code.Comment "Start of generated code"]
    ++ (match pr.config.model with | some model => [model] | none => [])
    ++ [UNITS_MM, ABS_COORD, HOME, Code.NOP,
        Code.Move ⟨none, none, some pr.config.z0⟩ pr.config.move_speed,
        Code.Move ⟨some pr.config.min.1, some pr.config.min.2, none⟩ pr.config.move_speed,
        SET_ORIGIN, Code.Message "0.0%", Code.NOP]

/-- Footer commands assembled by Printer::save. -/
def footerCmds (pr : Printer) : List Code :=
  [Code.Comment "Lift the head up before turning off",
   Code.Move ⟨none, none, some Z_RESET⟩ pr.config.move_speed,
   OFF, Code.NOP]

/-- The full command sequence Printer::save hands to write_code, in order:
header, body with injected progress messages, footer. -/
noncomputable def saveCodes (pr : Printer) : List Code :=
  let skip := skipFor pr.code.length
  let total_time := Int.toNat ⌊totalDist pr / (SPEED : ℝ)⌋
  headerCmds pr ++ bodyLoop pr.code.length skip total_time 1 pr.code ++ footerCmds pr

/-- Output sink model for std::fs::File: creation may fail, and each
individual write (numbered in order) may fail. -/
structure Sink where
  createFails : Bool
  writeFails : ℕ → Bool

/-- State of an open output file: the chunks written so far and the number of
write attempts made. -/
structure FileSt where
  chunks : List String
  nwrites : ℕ

/-- One write_all call: on failure the chunk is lost and the error value is
produced; the source discards that error. -/
def write_all (s : Sink) (f : FileSt) (chunk : String) : FileSt :=
  if s.writeFails f.nwrites then { f with nwrites := f.nwrites + 1 }
  else { chunks := f.chunks.concat chunk, nwrites := f.nwrites + 1 }

/-- fn write_code: renders the command and writes it plus a newline,
discarding the Result of both writes. -/
def write_code (s : Sink) (f : FileSt) (c : Code) : FileSt :=
  write_all s (write_all s f c.render) "\n"

/-- Printer::save against the sink model: File::create(..).unwrap() panics
when creation fails (the error branch); otherwise every command of saveCodes
is written through write_code and save returns normally. -/
noncomputable def saveRun (pr : Printer) (s : Sink) : Except String FileSt :=
  if s.createFails then Except.error "called unwrap on an Err value"
  else Except.ok ((saveCodes pr).foldl (fun f c => write_code s f c) ⟨[], 0⟩)

/-- The configuration used by the tests of the source (fn test_config). -/
def testConfig : PrinterConfig :=
  { model := some (Code.Model "MK3S")
    min := (50, 35)
    max := (254, 212)
    scale := none
    z0 := 13 / 2
    z_plunge := 4
    move_speed := 1000
    plunge_speed := 500
    retract_speed := 800 }

/-- A printer built solely through the public operations: Printer::new
followed by one draw_point per listed input pair. -/
def buildFromPoints (cfg : PrinterConfig) (pts : List (ℚ × ℚ)) : Printer :=
  pts.foldl (fun pr q => draw_point pr q.1 q.2) (Printer.new cfg)

/-- Iterated draw_point at a fixed input pair. -/
def iterDraw (pr : Printer) (x y : ℚ) : ℕ → Printer
  | 0 => pr
  | n + 1 => draw_point (iterDraw pr x y n) x y

theorem draw_point_code (pr : Printer) (xp yp : ℚ) :
    (draw_point pr xp yp).code = pr.code ++
      [Code.Comment ("draw_point(" ++ fmt1 xp ++ ", " ++ fmt1 yp ++ ")"),
       Code.Move ⟨some (scaledX pr xp), some (scaledY pr yp), none⟩ pr.config.move_speed,
       Code.Move ⟨none, none, some pr.config.z_plunge⟩ pr.config.plunge_speed,
       Code.Move ⟨none, none, some pr.config.z0⟩ pr.config.retract_speed,
       Code.NOP] := by
  simp [draw_point, List.concat_eq_append]

theorem draw_point_config (pr : Printer) (xp yp : ℚ) :
    (draw_point pr xp yp).config = pr.config := rfl

theorem draw_point_width (pr : Printer) (xp yp : ℚ) :
    (draw_point pr xp yp).width = pr.width := rfl

theorem draw_point_height (pr : Printer) (xp yp : ℚ) :
    (draw_point pr xp yp).height = pr.height := rfl

/-- C1: draw_point appends, in order, a Comment with the original unscaled
inputs, a Move to the computed lateral position (z absent) at the move feed,
a Move with only z to the plunge height at the plunge feed, a Move with only
z back to the resting height at the retract feed, and a NoOp; x and y are
each rescaled from the source drawing range into the envelope range when a
scale is configured, and pass through unchanged otherwise. -/
theorem c1_draw_point_emits (pr : Printer) (xp yp : ℚ) :
    (draw_point pr xp yp).code = pr.code ++
      [Code.Comment ("draw_point(" ++ fmt1 xp ++ ", " ++ fmt1 yp ++ ")"),
       Code.Move
         ⟨some (match pr.config.scale with
                | some (ow, _) => rescale xp 0 ow 0 pr.width
                | none => xp),
          some (match pr.config.scale with
                | some (_, oh) => rescale yp 0 oh 0 pr.height
                | none => yp),
          none⟩ pr.config.move_speed,
       Code.Move ⟨none, none, some pr.config.z_plunge⟩ pr.config.plunge_speed,
       Code.Move ⟨none, none, some pr.config.z0⟩ pr.config.retract_speed,
       Code.NOP] := by
  rw [draw_point_code]
  rfl

/-- C10: draw_point changes only the command buffer, appending exactly five
commands at the end; the configuration, the derived width and height and
every previously appended command are unchanged. -/
theorem c10_draw_point_frame (pr : Printer) (xp yp : ℚ) :
    (draw_point pr xp yp).config = pr.config ∧
    (draw_point pr xp yp).width = pr.width ∧
    (draw_point pr xp yp).height = pr.height ∧
    (draw_point pr xp yp).code.length = pr.code.length + 5 ∧
    (draw_point pr xp yp).code.take pr.code.length = pr.code := by
  refine ⟨rfl, rfl, rfl, ?_, ?_⟩ <;> rw [draw_point_code] <;> simp

/-- C3 counterexample: at buffer length 10060 the code computes the interval
by truncation, giving 150, while rounding 150.9 as the claim states would
give 151. -/
theorem c3_counterexample :
    skipFor 10060 ≠ max (Int.toNat (round ((10060 : ℚ) * (15 / 1000)))) 5 := by
  rw [skipFor]
  have h1 : ((10060 : ℕ) : ℚ) * (15 / 1000) = 1509 / 10 := by norm_num
  have h2 : ⌊(1509 / 10 : ℚ)⌋ = 150 := by norm_num
  have h3 : round ((10060 : ℚ) * (15 / 1000)) = 151 := by norm_num [round_eq]
  rw [h1, h2, h3]
  decide

/-- C3 amended: the progress interval for a buffer of length L is
max(truncate(0.015 L), 5), the cast to u32 truncating toward zero rather
than rounding; in particular it is 5 at L = 200 and 150 at L = 10000. -/
theorem c3_skip_formula :
    skipFor 200 = 5 ∧ skipFor 10000 = 150 ∧
    ∀ L : ℕ, skipFor L = max (Int.toNat ⌊(L : ℚ) * (15 / 1000)⌋) 5 := by
  refine ⟨?_, ?_, fun _ => rfl⟩
  · rw [skipFor]
    have h1 : ((200 : ℕ) : ℚ) * (15 / 1000) = 3 := by norm_num
    have h2 : ⌊(3 : ℚ)⌋ = 3 := by norm_num
    rw [h1, h2]
    decide
  · rw [skipFor]
    have h1 : ((10000 : ℕ) : ℚ) * (15 / 1000) = 150 := by norm_num
    have h2 : ⌊(150 : ℚ)⌋ = 150 := by norm_num
    rw [h1, h2]
    decide

theorem char_toString_length (a : Char) : (Char.toString a).length = 1 := rfl

theorem frag_length_pos (a : Char) (v : ℚ) : 0 < (Char.toString a ++ fmt1 v).length := by
  rw [String.length_append, char_toString_length]
  omega

theorem render_coord_none (a : Char) : render_coord a none = "" := rfl

theorem render_coord_some_length_pos (a : Char) (v : ℚ) :
    0 < (render_coord a (some v)).length :=
  frag_length_pos a v

theorem point_render_length_pos (p : Point) (h : p.x ≠ none ∨ p.y ≠ none ∨ p.z ≠ none) :
    0 < p.render.length := by
  obtain ⟨x, y, z⟩ := p
  cases x <;> cases y <;> cases z <;>
    simp_all [Point.render, render_coord, String.length_append, char_toString_length,
      frag_length_pos]

theorem g_line_shape (point_str feed_str : String) :
    "G" ++ toString G_MODE ++ " " ++ point_str ++ " F" ++ feed_str =
      "G0 " ++ point_str ++ " F" ++ feed_str := rfl

/-- C6: a Move whose Coordinate renders empty, which happens exactly when all
axes are absent, renders as the fixed warning comment regardless of feed; a
Move with at least one present axis renders as a G line with the fixed mode
constant, the coordinate text and the one-decimal feed. -/
theorem c6_render_move_guard (p : Point) (feed : ℚ) :
    render_move p feed =
      if p.x = none ∧ p.y = none ∧ p.z = none
      then "; [WARNING] Move without coordinates!"
      else "G0 " ++ p.render ++ " F" ++ fmt1 feed := by
  obtain ⟨x, y, z⟩ := p
  by_cases h : x = none ∧ y = none ∧ z = none
  · obtain ⟨hx, hy, hz⟩ := h
    subst hx
    subst hy
    subst hz
    rfl
  · rw [if_neg h]
    have hpos : 0 < (Point.mk x y z).render.length :=
      point_render_length_pos ⟨x, y, z⟩
        (by
          show x ≠ none ∨ y ≠ none ∨ z ≠ none
          tauto)
    simp only [render_move]
    rw [if_neg (by omega)]
    exact g_line_shape _ _

/-- Modelled from the spec wording of the Coordinate rendering: the list of
per-axis fragments of the present axes, in fixed axis order X, Y, Z. -/
def specAxisFrags (p : Point) : List String :=
  (match p.x with | some v => [Char.toString 'X' ++ fmt1 v] | none => [])
    ++ (match p.y with | some v => [Char.toString 'Y' ++ fmt1 v] | none => [])
    ++ (match p.z with | some v => [Char.toString 'Z' ++ fmt1 v] | none => [])

/-- Modelled from the spec wording: join fragments with a single space, no
leading or trailing space, empty for the empty list. -/
def joinWithSpace : List String → String
  | [] => ""
  | [s] => s
  | s :: rest => s ++ " " ++ joinWithSpace rest

/-- C7: the rendering of a Coordinate is exactly its present-axis fragments,
in fixed order X, Y, Z, joined by single spaces, with no contribution from
absent axes; with no present axis it is the empty string. -/
theorem c7_point_rendering (p : Point) :
    p.render = joinWithSpace (specAxisFrags p) := by
  obtain ⟨x, y, z⟩ := p
  cases x <;> cases y <;> cases z <;>
    simp [Point.render, render_coord, specAxisFrags, joinWithSpace, frag_length_pos,
      String.length_empty, String.append_empty, String.empty_append, String.append_assoc]

theorem totalDistLoop_nil (acc : ℝ) (curr : Point) : totalDistLoop acc curr [] = acc := rfl

theorem totalDistLoop_comment (acc : ℝ) (curr : Point) (s : String) (rest : List Code) :
    totalDistLoop acc curr (Code.Comment s :: rest) = totalDistLoop acc curr rest := rfl

theorem totalDistLoop_nop (acc : ℝ) (curr : Point) (rest : List Code) :
    totalDistLoop acc curr (Code.NOP :: rest) = totalDistLoop acc curr rest := rfl

theorem totalDistLoop_move (acc : ℝ) (curr : Point) (p : Point) (f : ℚ) (rest : List Code) :
    totalDistLoop acc curr (Code.Move p f :: rest) =
      totalDistLoop (acc + delta_point curr p)
        ⟨p.x.or curr.x, p.y.or curr.y, p.z.or curr.z⟩ rest := rfl

theorem delta_point_xy (a b z tx ty : ℚ) :
    delta_point ⟨some a, some b, some z⟩ ⟨some tx, some ty, none⟩ =
      Real.sqrt (((a - tx : ℚ) : ℝ) ^ 2 + ((b - ty : ℚ) : ℝ) ^ 2) := by
  simp [delta_point, optZip]

theorem delta_point_z (a b z tz : ℚ) :
    delta_point ⟨some a, some b, some z⟩ ⟨none, none, some tz⟩ = |((z - tz : ℚ) : ℝ)| := by
  simp [delta_point, optZip, Real.sqrt_sq_eq_abs]

/-- C2: the concrete scenario of the spec: draw_point(50, 49) then
draw_point(29, 29) on a fresh printer with z0 = 6.5 and z_plunge = 4 gives a
total distance within 0.01 of 99 plus two pen cycles of 2 times 2.5. -/
theorem c2_total_dist_scenario :
    |totalDist (draw_point (draw_point (Printer.new testConfig) 50 49) 29 29)
      - (99 + 2 * (2 * ((6.5 : ℝ) - 4)))| < 0.01 := by
  have hc : (draw_point (draw_point (Printer.new testConfig) 50 49) 29 29).code =
      [Code.Comment ("draw_point(" ++ fmt1 50 ++ ", " ++ fmt1 49 ++ ")"),
       Code.Move ⟨some 50, some 49, none⟩ 1000,
       Code.Move ⟨none, none, some 4⟩ 500,
       Code.Move ⟨none, none, some (13 / 2)⟩ 800,
       Code.NOP,
       Code.Comment ("draw_point(" ++ fmt1 29 ++ ", " ++ fmt1 29 ++ ")"),
       Code.Move ⟨some 29, some 29, none⟩ 1000,
       Code.Move ⟨none, none, some 4⟩ 500,
       Code.Move ⟨none, none, some (13 / 2)⟩ 800,
       Code.NOP] := by
    rw [draw_point_code, draw_point_code]
    simp [Printer.new, testConfig, scaledX, scaledY, draw_point_config]
  have hz0 : (draw_point (draw_point (Printer.new testConfig) 50 49) 29 29).config.z0
      = 13 / 2 := rfl
  rw [totalDist, hz0, hc]
  rw [totalDistLoop_comment, totalDistLoop_move, totalDistLoop_move, totalDistLoop_move,
    totalDistLoop_nop, totalDistLoop_comment]
  simp only [Option.or_some, Option.none_or]
  rw [totalDistLoop_move, totalDistLoop_move, totalDistLoop_move]
  simp only [Option.or_some, Option.none_or]
  rw [totalDistLoop_nop, totalDistLoop_nil]
  rw [delta_point_xy, delta_point_z, delta_point_z, delta_point_xy, delta_point_z, delta_point_z]
  have e1 : Real.sqrt (((0 - 50 : ℚ) : ℝ) ^ 2 + ((0 - 49 : ℚ) : ℝ) ^ 2) = Real.sqrt 4901 := by
    norm_num
  have e2 : Real.sqrt (((50 - 29 : ℚ) : ℝ) ^ 2 + ((49 - 29 : ℚ) : ℝ) ^ 2) = Real.sqrt 841 := by
    norm_num
  have e3 : |((13 / 2 - 4 : ℚ) : ℝ)| = 5 / 2 := by
    rw [abs_of_nonneg] <;> norm_num
  have e4 : |((4 - 13 / 2 : ℚ) : ℝ)| = 5 / 2 := by
    rw [abs_of_nonpos] <;> norm_num
  rw [e1, e2, e3, e4]
  have e5 : Real.sqrt 841 = 29 := by
    rw [show (841 : ℝ) = 29 ^ 2 by norm_num, Real.sqrt_sq (by norm_num)]
  rw [e5]
  have hlo : (70 : ℝ) < Real.sqrt 4901 := by
    rw [show (70 : ℝ) = Real.sqrt (70 ^ 2) from (Real.sqrt_sq (by norm_num)).symm]
    exact Real.sqrt_lt_sqrt (by norm_num) (by norm_num)
  have hhi : Real.sqrt 4901 < 70.01 := by
    rw [show (70.01 : ℝ) = Real.sqrt (70.01 ^ 2) from (Real.sqrt_sq (by norm_num)).symm]
    exact Real.sqrt_lt_sqrt (by norm_num) (by norm_num)
  rw [abs_lt]
  constructor <;> nlinarith

/-- C4 counterexample: two draw_point calls at the same location (3, 4) on a
fresh printer with z0 = 6.5 and z_plunge = 4: the first move travels 5 from
the (0, 0) seed, so the total is 15, not the claimed 2 x (2 x 2.5) = 10. -/
theorem c4_counterexample :
    totalDist (draw_point (draw_point (Printer.new testConfig) 3 4) 3 4)
      ≠ 2 * (2 * ((6.5 : ℝ) - 4)) := by
  have hc : (draw_point (draw_point (Printer.new testConfig) 3 4) 3 4).code =
      [Code.Comment ("draw_point(" ++ fmt1 3 ++ ", " ++ fmt1 4 ++ ")"),
       Code.Move ⟨some 3, some 4, none⟩ 1000,
       Code.Move ⟨none, none, some 4⟩ 500,
       Code.Move ⟨none, none, some (13 / 2)⟩ 800,
       Code.NOP,
       Code.Comment ("draw_point(" ++ fmt1 3 ++ ", " ++ fmt1 4 ++ ")"),
       Code.Move ⟨some 3, some 4, none⟩ 1000,
       Code.Move ⟨none, none, some 4⟩ 500,
       Code.Move ⟨none, none, some (13 / 2)⟩ 800,
       Code.NOP] := by
    rw [draw_point_code, draw_point_code]
    simp [Printer.new, testConfig, scaledX, scaledY, draw_point_config]
  have hz0 : (draw_point (draw_point (Printer.new testConfig) 3 4) 3 4).config.z0
      = 13 / 2 := rfl
  rw [totalDist, hz0, hc]
  rw [totalDistLoop_comment, totalDistLoop_move, totalDistLoop_move, totalDistLoop_move,
    totalDistLoop_nop, totalDistLoop_comment]
  simp only [Option.or_some, Option.none_or]
  rw [totalDistLoop_move, totalDistLoop_move, totalDistLoop_move]
  simp only [Option.or_some, Option.none_or]
  rw [totalDistLoop_nop, totalDistLoop_nil]
  simp only [delta_point_xy, delta_point_z]
  have e1 : Real.sqrt (((0 - 3 : ℚ) : ℝ) ^ 2 + ((0 - 4 : ℚ) : ℝ) ^ 2) = 5 := by
    rw [show (((0 - 3 : ℚ) : ℝ) ^ 2 + ((0 - 4 : ℚ) : ℝ) ^ 2) = 5 ^ 2 by norm_num]
    exact Real.sqrt_sq (by norm_num)
  have e2 : Real.sqrt (((3 - 3 : ℚ) : ℝ) ^ 2 + ((4 - 4 : ℚ) : ℝ) ^ 2) = 0 := by
    norm_num
  have e3 : |((13 / 2 - 4 : ℚ) : ℝ)| = 5 / 2 := by
    rw [abs_of_nonneg] <;> norm_num
  have e4 : |((4 - 13 / 2 : ℚ) : ℝ)| = 5 / 2 := by
    rw [abs_of_nonpos] <;> norm_num
  rw [e1, e2, e3, e4]
  norm_num

theorem Printer.new_config (cfg : PrinterConfig) : (Printer.new cfg).config = cfg := rfl

theorem iterDraw_config (pr : Printer) (x y : ℚ) (n : ℕ) :
    (iterDraw pr x y n).config = pr.config := by
  induction n with
  | zero => rfl
  | succ n ih => rw [iterDraw, draw_point_config, ih]

theorem iterDraw_width (pr : Printer) (x y : ℚ) (n : ℕ) :
    (iterDraw pr x y n).width = pr.width := by
  induction n with
  | zero => rfl
  | succ n ih => rw [iterDraw, draw_point_width, ih]

theorem iterDraw_height (pr : Printer) (x y : ℚ) (n : ℕ) :
    (iterDraw pr x y n).height = pr.height := by
  induction n with
  | zero => rfl
  | succ n ih => rw [iterDraw, draw_point_height, ih]

theorem scaledX_iterDraw (pr : Printer) (x y xp : ℚ) (n : ℕ) :
    scaledX (iterDraw pr x y n) xp = scaledX pr xp := by
  simp [scaledX, iterDraw_config, iterDraw_width]

theorem scaledY_iterDraw (pr : Printer) (x y yp : ℚ) (n : ℕ) :
    scaledY (iterDraw pr x y n) yp = scaledY pr yp := by
  simp [scaledY, iterDraw_config, iterDraw_height]

/-- The five commands one draw_point call appends, in terms of the printer it
is called on. -/
def blockFor (pr : Printer) (x y : ℚ) : List Code :=
  [Code.Comment ("draw_point(" ++ fmt1 x ++ ", " ++ fmt1 y ++ ")"),
   Code.Move ⟨some (scaledX pr x), some (scaledY pr y), none⟩ pr.config.move_speed,
   Code.Move ⟨none, none, some pr.config.z_plunge⟩ pr.config.plunge_speed,
   Code.Move ⟨none, none, some pr.config.z0⟩ pr.config.retract_speed,
   Code.NOP]

theorem iterDraw_code (pr : Printer) (x y : ℚ) (n : ℕ) :
    (iterDraw pr x y n).code = pr.code ++ (List.replicate n (blockFor pr x y)).flatten := by
  induction n with
  | zero => simp [iterDraw]
  | succ n ih =>
      rw [iterDraw, draw_point_code, ih, scaledX_iterDraw, scaledY_iterDraw, iterDraw_config,
        List.replicate_succ', List.flatten_append]
      simp [blockFor]

theorem totalDistLoop_block (acc : ℝ) (a b ex ey z0 zp ms ps rs : ℚ) (cmt : String)
    (rest : List Code) (hz : zp ≤ z0) :
    totalDistLoop acc ⟨some a, some b, some z0⟩
      (Code.Comment cmt :: Code.Move ⟨some ex, some ey, none⟩ ms ::
        Code.Move ⟨none, none, some zp⟩ ps :: Code.Move ⟨none, none, some z0⟩ rs ::
        Code.NOP :: rest) =
      totalDistLoop
        (acc + Real.sqrt (((a - ex : ℚ) : ℝ) ^ 2 + ((b - ey : ℚ) : ℝ) ^ 2)
          + 2 * ((z0 : ℝ) - (zp : ℝ)))
        ⟨some ex, some ey, some z0⟩ rest := by
  rw [totalDistLoop_comment, totalDistLoop_move]
  simp only [Option.or_some, Option.none_or]
  rw [totalDistLoop_move]
  simp only [Option.or_some, Option.none_or]
  rw [totalDistLoop_move]
  simp only [Option.or_some, Option.none_or]
  rw [totalDistLoop_nop]
  rw [delta_point_xy, delta_point_z, delta_point_z]
  rw [abs_of_nonneg (show (0 : ℝ) ≤ ((z0 - zp : ℚ) : ℝ) by exact_mod_cast sub_nonneg.mpr hz),
    abs_of_nonpos (show ((zp - z0 : ℚ) : ℝ) ≤ 0 by exact_mod_cast sub_nonpos.mpr hz)]
  congr 1
  push_cast
  ring

theorem totalDistLoop_blockFor (pr : Printer) (x y a b : ℚ) (acc : ℝ) (rest : List Code)
    (hz : pr.config.z_plunge ≤ pr.config.z0) :
    totalDistLoop acc ⟨some a, some b, some pr.config.z0⟩ (blockFor pr x y ++ rest) =
      totalDistLoop
        (acc + Real.sqrt (((a - scaledX pr x : ℚ) : ℝ) ^ 2 + ((b - scaledY pr y : ℚ) : ℝ) ^ 2)
          + 2 * ((pr.config.z0 : ℝ) - (pr.config.z_plunge : ℝ)))
        ⟨some (scaledX pr x), some (scaledY pr y), some pr.config.z0⟩ rest := by
  rw [blockFor]
  simp only [List.cons_append, List.nil_append]
  exact totalDistLoop_block acc a b (scaledX pr x) (scaledY pr y) pr.config.z0
    pr.config.z_plunge pr.config.move_speed pr.config.plunge_speed pr.config.retract_speed
    _ rest hz

theorem totalDistLoop_replicate (pr : Printer) (x y : ℚ)
    (hz : pr.config.z_plunge ≤ pr.config.z0) :
    ∀ (n : ℕ) (acc : ℝ),
      totalDistLoop acc
          ⟨some (scaledX pr x), some (scaledY pr y), some pr.config.z0⟩
          (List.replicate n (blockFor pr x y)).flatten
        = acc + n * (2 * ((pr.config.z0 : ℝ) - (pr.config.z_plunge : ℝ))) := by
  intro n
  induction n with
  | zero =>
      intro acc
      simp [totalDistLoop_nil]
  | succ n ih =>
      intro acc
      rw [List.replicate_succ, List.flatten_cons]
      rw [totalDistLoop_blockFor pr x y _ _ acc _ hz]
      rw [ih]
      simp only [sub_self, Rat.cast_zero, ne_eq, OfNat.ofNat_ne_zero, not_false_eq_true,
        zero_pow, add_zero, Real.sqrt_zero]
      push_cast
      ring

/-- C4 amended: on a fresh printer, n draw_point calls at one location (x, y)
give a total distance equal to the initial lateral travel from the (0, 0)
seed to the computed location plus 2 x (z0 - z_plunge) per call; the claimed
value, the per-call sum alone, holds exactly when the computed location is
the origin. -/
theorem c4_amended (cfg : PrinterConfig) (x y : ℚ) (n : ℕ) (hn : 0 < n)
    (hz : cfg.z_plunge ≤ cfg.z0) :
    totalDist (iterDraw (Printer.new cfg) x y n) =
      Real.sqrt ((scaledX (Printer.new cfg) x : ℝ) ^ 2 + (scaledY (Printer.new cfg) y : ℝ) ^ 2)
        + n * (2 * ((cfg.z0 : ℝ) - (cfg.z_plunge : ℝ))) := by
  obtain ⟨m, rfl⟩ : ∃ m, n = m + 1 := ⟨n - 1, by omega⟩
  have hz' : (Printer.new cfg).config.z_plunge ≤ (Printer.new cfg).config.z0 := hz
  rw [totalDist, iterDraw_config, iterDraw_code]
  rw [show (Printer.new cfg).code = [] from rfl, List.nil_append]
  rw [List.replicate_succ, List.flatten_cons]
  rw [totalDistLoop_blockFor (Printer.new cfg) x y 0 0 0 _ hz']
  rw [totalDistLoop_replicate (Printer.new cfg) x y hz' m]
  have hsq : ((0 - scaledX (Printer.new cfg) x : ℚ) : ℝ) ^ 2
        + ((0 - scaledY (Printer.new cfg) y : ℚ) : ℝ) ^ 2
      = ((scaledX (Printer.new cfg) x : ℚ) : ℝ) ^ 2
        + ((scaledY (Printer.new cfg) y : ℚ) : ℝ) ^ 2 := by
    push_cast
    ring
  rw [hsq]
  simp only [Printer.new_config]
  push_cast
  ring

/-- C4 amended, witnessed at the concrete case of the spec: two calls at the
origin with z0 = 6.5 and z_plunge = 4 give exactly 10. -/
theorem c4_amended_witness :
    (0 : ℕ) < 2 ∧ testConfig.z_plunge ≤ testConfig.z0 ∧
    totalDist (iterDraw (Printer.new testConfig) 0 0 2) = 10 := by
  refine ⟨by norm_num, by show (4 : ℚ) ≤ 13 / 2; norm_num, ?_⟩
  rw [c4_amended testConfig 0 0 2 (by norm_num) (by show (4 : ℚ) ≤ 13 / 2; norm_num)]
  rw [show scaledX (Printer.new testConfig) 0 = 0 from rfl,
    show scaledY (Printer.new testConfig) 0 = 0 from rfl,
    show testConfig.z0 = 13 / 2 from rfl, show testConfig.z_plunge = 4 from rfl]
  push_cast
  norm_num

/-- C8: save on an empty buffer emits exactly the header (start comment,
optional model check, set-units, absolute mode, home, blank, move to resting
height, move to the envelope minimum, set-origin, 0.0 percent message,
blank) followed immediately by the footer (comment, move to the fixed park
height 80, motors off, blank), with no body lines and no progress messages. -/
theorem c8_save_empty_buffer (pr : Printer) (h : pr.code = []) :
    saveCodes pr =
      [Code.Comment "Start of generated code"]
        ++ (match pr.config.model with | some model => [model] | none => [])
        ++ [Code.Raw ⟨"G21", some "Set units to millimeters"⟩,
            Code.Raw ⟨"G90", some "Use absolute coordinates"⟩,
            Code.Raw ⟨"G28 W", some "Home all without mesh bed level"⟩,
            Code.NOP,
            Code.Move ⟨none, none, some pr.config.z0⟩ pr.config.move_speed,
            Code.Move ⟨some pr.config.min.1, some pr.config.min.2, none⟩ pr.config.move_speed,
            Code.Raw ⟨"G92 X0 Y0", some "Set current position to origin"⟩,
            Code.Message "0.0%",
            Code.NOP,
            Code.Comment "Lift the head up before turning off",
            Code.Move ⟨none, none, some 80⟩ pr.config.move_speed,
            Code.Raw ⟨"M84", some "Disable motors"⟩,
            Code.NOP] := by
  rw [saveCodes, h]
  simp [headerCmds, footerCmds, bodyLoop, UNITS_MM, ABS_COORD, HOME, SET_ORIGIN, OFF, Z_RESET]

/-- C8 witnessed on the concrete test configuration. -/
theorem c8_save_empty_buffer_witness :
    (Printer.new testConfig).code = [] ∧
    saveCodes (Printer.new testConfig) =
      [Code.Comment "Start of generated code",
       Code.Model "MK3S",
       Code.Raw ⟨"G21", some "Set units to millimeters"⟩,
       Code.Raw ⟨"G90", some "Use absolute coordinates"⟩,
       Code.Raw ⟨"G28 W", some "Home all without mesh bed level"⟩,
       Code.NOP,
       Code.Move ⟨none, none, some (13 / 2)⟩ 1000,
       Code.Move ⟨some 50, some 35, none⟩ 1000,
       Code.Raw ⟨"G92 X0 Y0", some "Set current position to origin"⟩,
       Code.Message "0.0%",
       Code.NOP,
       Code.Comment "Lift the head up before turning off",
       Code.Move ⟨none, none, some 80⟩ 1000,
       Code.Raw ⟨"M84", some "Disable motors"⟩,
       Code.NOP] := by
  refine ⟨rfl, ?_⟩
  rw [c8_save_empty_buffer (Printer.new testConfig) rfl]
  simp [Printer.new, testConfig]

/-- C5 counterexample: with a sink whose file creation fails, save hits the
unwrap panic instead of reporting success, so the caller does observe the
output-sink failure, contrary to the claim. -/
theorem c5_counterexample :
    (saveRun (Printer.new testConfig) ⟨true, fun _ => false⟩).isOk = false := rfl

/-- C5 amended: write failures are discarded inside write_code, so whenever
file creation succeeds, save returns normally no matter which writes fail;
only a file-creation failure is observable, as the unwrap panic. -/
theorem c5_amended (pr : Printer) (s : Sink) (h : s.createFails = false) :
    ∃ f, saveRun pr s = Except.ok f := by
  rw [saveRun, h]
  simp only [Bool.false_eq_true, if_false]
  exact ⟨_, rfl⟩

/-- C5 amended, witnessed with a sink where every single write fails: save
still reports success. -/
theorem c5_amended_witness :
    (Sink.mk false (fun _ => true)).createFails = false ∧
    ∃ f, saveRun (Printer.new testConfig) ⟨false, fun _ => true⟩ = Except.ok f :=
  ⟨rfl, c5_amended (Printer.new testConfig) ⟨false, fun _ => true⟩ rfl⟩

theorem bodyLoop_move_mem (len skip tt : ℕ) (p : Point) (f : ℚ) :
    ∀ (count : ℕ) (l : List Code), Code.Move p f ∈ bodyLoop len skip tt count l →
      Code.Move p f ∈ l := by
  intro count l
  induction l generalizing count with
  | nil =>
      intro h
      simp [bodyLoop] at h
  | cons c rest ih =>
      intro h
      simp only [bodyLoop] at h
      rcases List.mem_cons.mp h with h1 | h2
      · rw [h1]
        exact List.mem_cons_self _ _
      · rcases List.mem_append.mp h2 with h3 | h4
        · by_cases hc : count % skip = 0
          · rw [if_pos hc] at h3
            simp at h3
          · rw [if_neg hc] at h3
            simp at h3
        · exact List.mem_cons_of_mem _ (ih (count + 1) h4)

theorem draw_point_moves (pr : Printer) (xp yp : ℚ)
    (hpr : ∀ p f, Code.Move p f ∈ pr.code →
      (∃ a b, p = ⟨some a, some b, none⟩) ∨ (∃ c, p = ⟨none, none, some c⟩)) :
    ∀ p f, Code.Move p f ∈ (draw_point pr xp yp).code →
      (∃ a b, p = ⟨some a, some b, none⟩) ∨ (∃ c, p = ⟨none, none, some c⟩) := by
  intro p f hm
  rw [draw_point_code] at hm
  rcases List.mem_append.mp hm with h1 | h2
  · exact hpr p f h1
  · simp only [List.mem_cons, List.not_mem_nil, or_false, Code.Move.injEq, reduceCtorEq,
      false_or] at h2
    rcases h2 with ⟨hp, _⟩ | ⟨hp, _⟩ | ⟨hp, _⟩
    · exact Or.inl ⟨_, _, hp⟩
    · exact Or.inr ⟨_, hp⟩
    · exact Or.inr ⟨_, hp⟩

theorem foldl_draw_moves (l : List (ℚ × ℚ)) :
    ∀ (pr : Printer),
      (∀ p f, Code.Move p f ∈ pr.code →
        (∃ a b, p = ⟨some a, some b, none⟩) ∨ (∃ c, p = ⟨none, none, some c⟩)) →
      ∀ p f, Code.Move p f ∈ (l.foldl (fun pr q => draw_point pr q.1 q.2) pr).code →
        (∃ a b, p = ⟨some a, some b, none⟩) ∨ (∃ c, p = ⟨none, none, some c⟩) := by
  induction l with
  | nil =>
      intro pr h
      simpa using h
  | cons q rest ih =>
      intro pr h
      rw [List.foldl_cons]
      exact ih (draw_point pr q.1 q.2) (draw_point_moves pr q.1 q.2 h)

theorem buildFromPoints_config (cfg : PrinterConfig) (pts : List (ℚ × ℚ)) :
    (buildFromPoints cfg pts).config = cfg := by
  rw [buildFromPoints]
  have main : ∀ (l : List (ℚ × ℚ)) (pr : Printer),
      (l.foldl (fun pr q => draw_point pr q.1 q.2) pr).config = pr.config := by
    intro l
    induction l with
    | nil => intro pr; rfl
    | cons q rest ih =>
        intro pr
        rw [List.foldl_cons, ih, draw_point_config]
  exact main pts (Printer.new cfg)

/-- C9: for a printer built only through Printer::new and draw_point, with a
configured model command that is a ModelCheck as the data model prescribes,
every Move in the output of save has at least one present axis, either both
x and y with z absent or only z, so its rendering is never the warning
comment: the motionless-move branch of render_move is unreachable. -/
theorem c9_no_warning_moves (cfg : PrinterConfig) (pts : List (ℚ × ℚ)) (p : Point) (f : ℚ)
    (hmodel : ∀ c, cfg.model = some c → ∃ m, c = Code.Model m)
    (h : Code.Move p f ∈ saveCodes (buildFromPoints cfg pts)) :
    ((∃ a b, p = ⟨some a, some b, none⟩) ∨ (∃ c, p = ⟨none, none, some c⟩)) ∧
      (Code.Move p f).render ≠ "; [WARNING] Move without coordinates!" := by
  have hshape : (∃ a b, p = ⟨some a, some b, none⟩) ∨ (∃ c, p = ⟨none, none, some c⟩) := by
    simp only [saveCodes] at h
    rcases List.mem_append.mp h with h12 | hf
    · rcases List.mem_append.mp h12 with hh | hb
      · rw [headerCmds, buildFromPoints_config] at hh
        rcases hmo : cfg.model with _ | c
        · rw [hmo] at hh
          simp only [List.mem_append, List.mem_cons, List.not_mem_nil, or_false,
            UNITS_MM, ABS_COORD, HOME, SET_ORIGIN, Code.Move.injEq, reduceCtorEq,
            false_or] at hh
          rcases hh with ⟨hp, _⟩ | ⟨hp, _⟩
          · exact Or.inr ⟨_, hp⟩
          · exact Or.inl ⟨_, _, hp⟩
        · rw [hmo] at hh
          obtain ⟨m, rfl⟩ := hmodel c hmo
          simp only [List.mem_append, List.mem_cons, List.not_mem_nil, or_false,
            UNITS_MM, ABS_COORD, HOME, SET_ORIGIN, Code.Move.injEq, reduceCtorEq,
            false_or] at hh
          rcases hh with ⟨hp, _⟩ | ⟨hp, _⟩
          · exact Or.inr ⟨_, hp⟩
          · exact Or.inl ⟨_, _, hp⟩
      · have hb2 := bodyLoop_move_mem _ _ _ p f _ _ hb
        refine foldl_draw_moves pts (Printer.new cfg) ?_ p f hb2
        intro p' f' hmem
        simp [Printer.new] at hmem
    · rw [footerCmds] at hf
      simp only [List.mem_cons, List.not_mem_nil, or_false, OFF, Code.Move.injEq,
        reduceCtorEq, false_or] at hf
      obtain ⟨hp, _⟩ := hf
      exact Or.inr ⟨_, hp⟩
  refine ⟨hshape, ?_⟩
  have hax : p.x ≠ none ∨ p.y ≠ none ∨ p.z ≠ none := by
    rcases hshape with ⟨a, b, rfl⟩ | ⟨c, rfl⟩ <;> simp
  have hpos := point_render_length_pos p hax
  show render_move p f ≠ _
  simp only [render_move]
  rw [if_neg (by omega), g_line_shape]
  intro hEq
  have hd := congrArg String.data hEq
  simp only [String.data_append] at hd
  simp at hd

/-- C9 witnessed at the header retract move of the test configuration. -/
theorem c9_no_warning_moves_witness :
    ((∃ a b, (⟨none, none, some (13 / 2)⟩ : Point) = ⟨some a, some b, none⟩) ∨
      (∃ c, (⟨none, none, some (13 / 2)⟩ : Point) = ⟨none, none, some c⟩)) ∧
      (Code.Move (⟨none, none, some (13 / 2)⟩ : Point) 1000).render ≠
        "; [WARNING] Move without coordinates!" := by
  refine c9_no_warning_moves testConfig [] ⟨none, none, some (13 / 2)⟩ 1000 ?_ ?_
  · intro c hc
    exact ⟨"MK3S", (Option.some.inj hc).symm⟩
  · simp [saveCodes, headerCmds, footerCmds, bodyLoop, buildFromPoints, Printer.new, testConfig]
